/-
  Verification of the campusconnect backend proximity subsystem.

  Shallow embedding of the code in `src/routes/user.routes.js` (indexed and
  legacy variants), `src/routes/admin.routes.js` (geofence settings
  endpoints), the shared geographic utilities (`haversineDistance`,
  `pointInsideGeofence`) and the compatibility scorer (`scoreMatch`).

  JavaScript numbers are modelled by `JsNum`: a finite double is a rational,
  and the special values NaN / Infinity / -Infinity are explicit
  constructors.  Floating-point rounding is abstracted away: arithmetic on
  finite values is exact (rational / real), which is the standard reading of
  the numeric code here.  Real-valued trigonometry (the Haversine formula)
  lives in `Real`, so the distance functions are noncomputable; every other
  definition is executable.
-/
import Mathlib

set_option maxHeartbeats 1000000

namespace CampusConnect

/-- Model of a JavaScript number: either a finite double (an exact rational
in this model) or one of the special values `NaN`, `Infinity`,
`-Infinity`. -/
inductive JsNum where
  | finite (q : ℚ)
  | nan
  | posInf
  | negInf
deriving DecidableEq, Repr

/-- `Number.isNaN` on a `JsNum`. -/
def JsNum.isNaN : JsNum → Bool
  | .nan => true
  | _ => false

/-- A value arriving in the request body for `lat` / `lng`.
`num x` is a JavaScript number; `str x` is a string whose `parseFloat`
result is `x` (strings are abstracted by their parse result: `parseFloat`
of a non-numeric string is `NaN`); `other` is any non-number non-string
value (object, boolean, undefined, ...). -/
inductive LocField where
  | num (x : JsNum)
  | str (parsed : JsNum)
  | other
deriving DecidableEq, Repr

/-- The coercion in `router.patch(.../location)`:
`typeof lat === 'number' ? lat : (typeof lat === 'string' ? parseFloat(lat) : null)`. -/
def coerceNum : LocField → Option JsNum
  | .num x => some x
  | .str x => some x
  | .other => none

/-- The body validation of the location route (both variants, lines 603-616
of the indexed variant): reject when either coordinate coerces to `null` or
to `NaN`; otherwise accept the coerced pair.  Note that the code checks only
`isNaN`: it never checks finiteness or the geographic ranges. -/
def validateLatLng (lf gf : LocField) : Option (JsNum × JsNum) :=
  match coerceNum lf, coerceNum gf with
  | some a, some b => if a.isNaN || b.isNaN then none else some (a, b)
  | _, _ => none

/-! ## Great-circle distance (src geo utilities, `haversineDistance`) -/

/-- `Math.atan2` on real arguments (signed zeros do not exist in `ℝ`). -/
noncomputable def atan2 (y x : ℝ) : ℝ :=
  if 0 < x then Real.arctan (y / x)
  else if x < 0 ∧ 0 ≤ y then Real.arctan (y / x) + Real.pi
  else if x < 0 ∧ y < 0 then Real.arctan (y / x) - Real.pi
  else if x = 0 ∧ 0 < y then Real.pi / 2
  else if x = 0 ∧ y < 0 then -(Real.pi / 2)
  else 0

/-- The Haversine distance of the shared geo utilities: Earth radius 6371 km
or 6371000 m chosen by the `unit` string, angles converted to radians. -/
noncomputable def haversineDistance (lat1 lon1 lat2 lon2 : ℝ) (unit : String) : ℝ :=
  let R : ℝ := if unit = "km" then 6371 else 6371000
  let dLat := (lat2 - lat1) * Real.pi / 180
  let dLon := (lon2 - lon1) * Real.pi / 180
  let a := Real.sin (dLat / 2) * Real.sin (dLat / 2) +
    Real.cos (lat1 * Real.pi / 180) * Real.cos (lat2 * Real.pi / 180) *
      (Real.sin (dLon / 2) * Real.sin (dLon / 2))
  let c := 2 * atan2 (Real.sqrt a) (Real.sqrt (1 - a))
  R * c

/-- Distance between two points carried by `JsNum` coordinates, in meters.
In JavaScript a non-finite argument propagates through `sin`/`cos` to a
`NaN` result; `none` stands for that `NaN`. -/
noncomputable def jsDistM : JsNum → JsNum → JsNum → JsNum → Option ℝ
  | .finite w, .finite x, .finite y, .finite z =>
      some (haversineDistance (w : ℝ) (x : ℝ) (y : ℝ) (z : ℝ) "m")
  | _, _, _, _ => none

/-- The JavaScript comparison `dist <= r` where `dist` may be `NaN`
(modelled `none`) and `r` is a `JsNum`; any comparison with `NaN` is
false, and a finite value is `<=` `Infinity`. -/
def jsLeNum (d : Option ℝ) (r : JsNum) : Prop :=
  match d, r with
  | some x, .finite q => x ≤ (q : ℝ)
  | some _, .posInf => True
  | _, _ => False

/-- The pure geofence predicate of the shared geo utilities
(`pointInsideGeofence`): `NaN` coordinates are rejected outright, otherwise
the Haversine distance to the center must be `<=` the radius (any `NaN`
arising from a non-finite center or coordinate makes the comparison
false). -/
def pointInsideGeofencePure (lat lng cLat cLng r : JsNum) : Prop :=
  if lat.isNaN || lng.isNaN then False
  else jsLeNum (jsDistM lat lng cLat cLng) r

/-- The effective geofence configuration used by the location route. -/
structure GeofenceSettings where
  enabled : Bool
  centerLat : JsNum
  centerLng : JsNum
  radiusMeters : JsNum
deriving DecidableEq, Repr

/-- The async wrapper `pointInsideGeofence` of the user routes: loads the
settings and returns `true` unconditionally when geofencing is disabled,
otherwise defers to the pure predicate with the configured center and
radius. -/
def insideGeofence (s : GeofenceSettings) (lat lng : JsNum) : Prop :=
  match s.enabled with
  | false => True
  | true => pointInsideGeofencePure lat lng s.centerLat s.centerLng s.radiusMeters

/-! ## Geofence settings providers -/

/-- The stored `admin/geofence` document: every field is optional (a
Firestore document need not carry them).  `enabled` keeps only whether the
field is the boolean `true` resp. `false`; any other stored value compares
unequal to `true` and is modelled as `none`. -/
structure GeofenceDoc where
  enabled : Option Bool
  centerLat : Option JsNum
  centerLng : Option JsNum
  radiusMeters : Option JsNum
deriving DecidableEq, Repr

/-- The `GEOFENCE_*` environment variables, each abstracted by the result of
`Number(...)` on the variable when it is set and non-empty (`none` when
unset; a set-but-empty string is falsy in every use site and is also
`none`). -/
structure EnvVars where
  centerLat : Option JsNum
  centerLng : Option JsNum
  radiusMeters : Option JsNum
  enabled : Option JsNum
deriving DecidableEq, Repr

/-- `Number(process.env.X)` where an unset variable yields `NaN`
(`Number(undefined)` is `NaN`, and `NaN` is not nullish, so a `?? default`
after it never fires). -/
def envNum : Option JsNum → JsNum
  | some v => v
  | none => .nan

/-- JavaScript truthiness of a number: `0` and `NaN` are falsy. -/
def numTruthy : JsNum → Bool
  | .finite q => q != 0
  | .nan => false
  | _ => true

/-- `Number(env) || default`: fall back to the default when the parsed
value is falsy (`0`, `NaN`, unset). -/
def envOrDefault (v : Option JsNum) (d : ℚ) : JsNum :=
  if numTruthy (envNum v) then envNum v else .finite d

/-- The fallback branch of `getGeofenceSettings` (user routes, lines
394-421 of the indexed variant): when no Firestore settings exist (or the
read failed), geofencing is enabled only when all three position env vars
are set and `GEOFENCE_ENABLED` parses to `1`; with no env configuration it
is disabled. -/
def fallbackGeofenceSettings (env : EnvVars) : GeofenceSettings :=
  let hasEnvVars := env.centerLat.isSome && env.centerLng.isSome && env.radiusMeters.isSome
  { enabled := if hasEnvVars then envNum env.enabled == .finite 1 else false
    centerLat := envOrDefault env.centerLat (51505 / 1000)
    centerLng := envOrDefault env.centerLng (5 / 100)
    radiusMeters := envOrDefault env.radiusMeters 1000 }

/-- `getGeofenceSettings` of the user routes.  `fetchFails` models the
Firestore read throwing: the `catch` swallows the error and control reaches
the same fallback as when no document exists.  When the document exists,
`enabled` holds only if the stored field is exactly `true`, and each
coordinate field falls back through `?? Number(env...)` (never reaching the
hard-coded default, since `Number(undefined)` is `NaN`, not nullish). -/
def getGeofenceSettings (fetchFails : Bool) (doc : Option GeofenceDoc)
    (env : EnvVars) : GeofenceSettings :=
  match fetchFails, doc with
  | false, some d =>
      { enabled := d.enabled == some true
        centerLat := d.centerLat.getD (envNum env.centerLat)
        centerLng := d.centerLng.getD (envNum env.centerLng)
        radiusMeters := d.radiusMeters.getD (envNum env.radiusMeters) }
  | _, _ => fallbackGeofenceSettings env

/-- The settings payload returned by the admin read endpoint. -/
structure AdminGeofenceView where
  enabled : Bool
  centerLat : JsNum
  centerLng : JsNum
  radiusMeters : JsNum
deriving DecidableEq, Repr

/-- `GET /geofence-settings` of the admin routes (lines 575-591): the
handler is wrapped in `asyncHandler`, so a failing Firestore read
propagates to the error middleware (an error response) instead of being
recovered; and the default settings spread under the stored document have
`enabled: true`. -/
def adminGeofenceRead (fetchResult : Except Unit (Option GeofenceDoc))
    (env : EnvVars) : Except Unit AdminGeofenceView :=
  match fetchResult with
  | .error e => .error e
  | .ok doc =>
      let dflt : AdminGeofenceView :=
        { enabled := true
          centerLat := envOrDefault env.centerLat (51505 / 1000)
          centerLng := envOrDefault env.centerLng (5 / 100)
          radiusMeters := envOrDefault env.radiusMeters 1000 }
      match doc with
      | none => .ok dflt
      | some d =>
          .ok { enabled := d.enabled.getD dflt.enabled
                centerLat := d.centerLat.getD dflt.centerLat
                centerLng := d.centerLng.getD dflt.centerLng
                radiusMeters := d.radiusMeters.getD dflt.radiusMeters }

/-! ## Spatial bucket index

Modelled from the spec: the repository calls the external `ngeohash`
package (`geohash.encode(lat, lng, 6)` and `geohash.neighbors(key)`),
whose source is not part of this repository.  Following the spec's
description (a fixed-precision geohash-like key plus its 8 adjacent keys),
the index is modelled as the standard precision-6 geohash grid: 30
interleaved bits, i.e. 2^15 cells per axis, rendered in the geohash base32
alphabet.  Cell membership uses the floor convention; `neighbors` is
modelled on the cell of the key (geohash decode of a key recovers its
cell), wrapping the longitude index and clamping the latitude index at the
poles. -/

/-- Latitude span of one precision-6 cell: 180 / 2^15 degrees. -/
def cellLatSpan : ℚ := 180 / 32768

/-- Longitude span of one precision-6 cell: 360 / 2^15 degrees. -/
def cellLonSpan : ℚ := 360 / 32768

/-- Latitude cell index in `[0, 32767]` (inputs beyond the valid range
clamp to the edge rows, as the bisection encoder does). -/
def latIdx (lat : ℚ) : ℕ :=
  min 32767 (Int.toNat ⌊(lat + 90) / cellLatSpan⌋)

/-- Longitude cell index in `[0, 32767]`. -/
def lonIdx (lon : ℚ) : ℕ :=
  min 32767 (Int.toNat ⌊(lon + 180) / cellLonSpan⌋)

/-- Interleave the 15 bits of the longitude index (odd bit positions) with
the 15 bits of the latitude index (even bit positions) into the 30-bit
geohash value, longitude first from the most significant bit. -/
def interleave (i j : ℕ) : ℕ :=
  (List.range 15).foldl
    (fun acc k => acc + (i / 2 ^ k % 2) * 2 ^ (2 * k + 1) + (j / 2 ^ k % 2) * 2 ^ (2 * k)) 0

/-- The geohash base32 alphabet. -/
def base32Chars : List Char := "0123456789bcdefghjkmnpqrstuvwxyz".toList

/-- Render a cell as its 6-character geohash key. -/
def keyOf (i j : ℕ) : String :=
  String.mk ((List.range 6).map (fun t => base32Chars.getD (interleave i j / 2 ^ (5 * (5 - t)) % 32) ' '))

/-- `geohash.encode(lat, lng, 6)` on rational coordinates. -/
def geohashEncode (lat lon : ℚ) : String :=
  keyOf (lonIdx lon) (latIdx lat)

/-- Clamp a `JsNum` coordinate to a rational before encoding: the bisection
encoder sends `Infinity` to the top cell and `NaN` / `-Infinity` to the
bottom cell (every comparison against `NaN` is false, so the lower half is
always taken). -/
def boundRat : JsNum → ℚ
  | .finite q => q
  | .posInf => 1000000
  | _ => -1000000

/-- `geohash.encode` applied to raw JavaScript numbers, as the route does. -/
def encodeJs (lat lng : JsNum) : String :=
  geohashEncode (boundRat lat) (boundRat lng)

/-- Wrap a shifted longitude index around the antimeridian. -/
def wrapLon (z : ℤ) : ℕ := (z % 32768).toNat

/-- Clamp a shifted latitude index at the poles. -/
def clampLat (z : ℤ) : ℕ := min 32767 z.toNat

/-- The 8 neighbor keys of the cell `(i, j)` (directions N, NE, E, SE, S,
SW, W, NW as `ngeohash` enumerates them). -/
def neighborKeys (i j : ℕ) : List String :=
  [((1 : ℤ), (0 : ℤ)), (1, 1), (0, 1), (-1, 1), (-1, 0), (-1, -1), (0, -1), (1, -1)].map
    (fun d => keyOf (wrapLon ((i : ℤ) + d.2)) (clampLat ((j : ℤ) + d.1)))

/-- The key of a coordinate followed by its 8 neighbor keys — the 9 bucket
keys the indexed route queries. -/
def nineKeysAt (lat lon : ℚ) : List String :=
  geohashEncode lat lon :: neighborKeys (lonIdx lon) (latIdx lat)

/-! ## Profile store and the location-update handler (indexed variant) -/

/-- A stored profile, restricted to the fields the proximity subsystem
reads.  `locationEnabled` is the opt-in flag (`!== true` checks and the
`== true` query filter make any non-`true` value behave like `false`);
`locationUpdatedAt` is the stored ISO timestamp abstracted by its parsed
epoch milliseconds (`none` when absent, empty or unparseable — all of which
the code skips); `major` absent is the empty string (the code reads
`major || ''`). -/
structure Profile where
  locationEnabled : Bool
  locationLat : Option JsNum
  locationLng : Option JsNum
  locationUpdatedAt : Option ℤ
  geohash : Option String
  major : String
  interests : List String
deriving DecidableEq, Repr

/-- A profile document freshly created by a merge-`set`: all location
fields absent, opt-in flag unset (hence not `true`). -/
def defaultProfile : Profile :=
  { locationEnabled := false, locationLat := none, locationLng := none
    locationUpdatedAt := none, geohash := none, major := "", interests := [] }

/-- The update object written by the location route.  The legacy variant's
object carries no `geohash` key (`geohash := none` here), the indexed
variant's does. -/
structure UpdateRec where
  locationLat : JsNum
  locationLng : JsNum
  locationText : String
  locationUpdatedAt : ℤ
  geohash : Option String
deriving DecidableEq, Repr

/-- The update object of the indexed variant (lines 635-642): coordinates,
cleared text, fresh timestamp, and the bucket key recomputed from the very
coordinates being written. -/
def buildLocationUpdateIndexed (a b : JsNum) (now : ℤ) : UpdateRec :=
  { locationLat := a, locationLng := b, locationText := ""
    locationUpdatedAt := now, geohash := some (encodeJs a b) }

/-- The update object of the legacy variant (lines 194-199): same fields
except that no bucket key is written. -/
def buildLocationUpdateLegacy (a b : JsNum) (now : ℤ) : UpdateRec :=
  { locationLat := a, locationLng := b, locationText := ""
    locationUpdatedAt := now, geohash := none }

/-- Firestore `set(update, { merge: true })` on one document: the update's
fields overwrite, every other field (in particular a `geohash` the update
does not mention) keeps its stored value. -/
def mergeLocationUpdate (p : Profile) (u : UpdateRec) : Profile :=
  { p with
    locationLat := some u.locationLat
    locationLng := some u.locationLng
    locationUpdatedAt := some u.locationUpdatedAt
    geohash := match u.geohash with
      | some g => some g
      | none => p.geohash }

/-- Point lookup in the profiles collection (a list of id-document pairs). -/
def dbLookup (db : List (String × Profile)) (uid : String) : Option Profile :=
  (db.find? (fun e => e.1 == uid)).map (·.2)

/-- Merge-`set` on the collection: update the document when present,
create it from an empty document otherwise. -/
def writeMerge (db : List (String × Profile)) (uid : String) (u : UpdateRec) :
    List (String × Profile) :=
  if db.any (fun e => e.1 == uid) then
    db.map (fun e => if e.1 == uid then (e.1, mergeLocationUpdate e.2 u) else e)
  else
    (uid, mergeLocationUpdate defaultProfile u) :: db

/-- An emitted proximity suggestion (ephemeral): the candidate's id, the
computed distance in meters (`none` for a `NaN` distance) and the shared
normalized interest tags. -/
structure Suggestion where
  userId : String
  distanceMeters : Option ℝ
  commonInterests : List String

/-- JavaScript `.trim()`: strip leading and trailing whitespace
(implemented over the character list so that it evaluates by structural
recursion). -/
def jsTrim (s : String) : String :=
  String.mk (((s.toList.dropWhile Char.isWhitespace).reverse.dropWhile
    Char.isWhitespace).reverse)

/-- `s.toLowerCase()` (implemented over the character list so that it
evaluates by structural recursion). -/
def jsLower (s : String) : String := String.mk (s.toList.map Char.toLower)

/-- `(s || '').toLowerCase().trim()`. -/
def normTag (s : String) : String := jsTrim (jsLower s)

/-- The normalized non-empty interest tags of a profile. -/
def normInterests (l : List String) : List String :=
  (l.map normTag).filter (fun i => i ≠ "")

/-- The shared normalized interests, in the submitter's order. -/
def sharedInterests (cur p : Profile) : List String :=
  (normInterests cur.interests).filter (fun i => (normInterests p.interests).contains i)

/-- The distance check `if (dist >= 100) continue`: a `NaN` distance
(`none`) compares false against 100 and is NOT skipped. -/
def distPass (d : Option ℝ) : Prop :=
  match d with
  | some x => x < 100
  | none => True

/-- The distance the route stores in a suggestion for candidate `p`. -/
noncomputable def candDist (a b : JsNum) (p : Profile) : Option ℝ :=
  match p.locationLat, p.locationLng with
  | some la, some ln => jsDistM a b la ln
  | _, _ => none

/-- Checks 1-6 of the candidate loop (indexed variant, lines 689-726):
valid location data, recency within 5 minutes, candidate inside the
geofence, distance below 100 m, matching non-empty normalized major, and at
least one shared normalized interest. -/
noncomputable def passesChecks (s : GeofenceSettings) (now : ℤ) (cur : Profile)
    (a b : JsNum) (p : Profile) : Prop :=
  match p.locationLat, p.locationLng, p.locationUpdatedAt with
  | some la, some ln, some ts =>
      now - ts ≤ 300000 ∧
      insideGeofence s la ln ∧
      distPass (jsDistM a b la ln) ∧
      (normTag cur.major ≠ "" ∧ normTag p.major ≠ "" ∧ normTag cur.major = normTag p.major) ∧
      sharedInterests cur p ≠ []
  | _, _, _ => False

open Classical in
/-- One iteration of the candidate loop, threading the seen-id set: a seen
id is skipped outright; otherwise the id is recorded before the checks run,
and a suggestion is appended exactly when every check passes. -/
noncomputable def processCandidate (s : GeofenceSettings) (now : ℤ) (cur : Profile)
    (a b : JsNum) (st : List String × List Suggestion) (doc : String × Profile) :
    List String × List Suggestion :=
  if doc.1 ∈ st.1 then st
  else if passesChecks s now cur a b doc.2 then
    (doc.1 :: st.1, st.2 ++ [{ userId := doc.1, distanceMeters := candDist a b doc.2
                               commonInterests := sharedInterests cur doc.2 }])
  else (doc.1 :: st.1, st.2)

/-- The candidate gathering and filtering of the indexed variant (lines
666-735): query the 9 bucket keys with an equality filter on the opt-in
flag, then run the candidate loop over the snapshots with the seen-id set
initialized to the submitter's id. -/
noncomputable def computeSuggestions (s : GeofenceSettings) (db : List (String × Profile))
    (userId : String) (cur : Profile) (a b : JsNum) (now : ℤ) : List Suggestion :=
  let hashes := nineKeysAt (boundRat a) (boundRat b)
  let snaps := hashes.map (fun h => db.filter (fun e => e.2.locationEnabled && e.2.geohash == some h))
  (snaps.foldl (fun st snap => snap.foldl (processCandidate s now cur a b) st) ([userId], [])).2

/-- The outcome of a location-update request: HTTP status, the merge-write
that occurred (if any), and the emitted suggestions. -/
structure HandleResult where
  status : ℕ
  persisted : Option UpdateRec
  suggestions : List Suggestion

/-- The accepted path of the indexed location route: build the update with
its recomputed bucket key, merge-write it, re-read the submitter's profile
(which the write just created or updated), and run the candidate search
only when the submitter's opt-in flag is `true`. -/
noncomputable def persistAndSuggest (s : GeofenceSettings) (db : List (String × Profile))
    (uid : String) (a b : JsNum) (now : ℤ) : HandleResult :=
  let upd := buildLocationUpdateIndexed a b now
  let db' := writeMerge db uid upd
  let cur := mergeLocationUpdate ((dbLookup db uid).getD defaultProfile) upd
  if cur.locationEnabled then
    { status := 200, persisted := some upd
      suggestions := computeSuggestions s db' uid cur a b now }
  else
    { status := 200, persisted := some upd, suggestions := [] }

open Classical in
/-- The indexed location route (lines 590-761): body validation, geofence
gate when enabled (the wrapper re-reads the same settings), then the
accepted path.  A rejection returns a 400 client error before any profile
write. -/
noncomputable def handleLocation (s : GeofenceSettings) (db : List (String × Profile))
    (uid : String) (lf gf : LocField) (now : ℤ) : HandleResult :=
  match validateLatLng lf gf with
  | none => { status := 400, persisted := none, suggestions := [] }
  | some (a, b) =>
      match s.enabled with
      | true =>
          if insideGeofence s a b then persistAndSuggest s db uid a b now
          else { status := 400, persisted := none, suggestions := [] }
      | false => persistAndSuggest s db uid a b now

/-! ## Compatibility scorer (`scoreMatch`) -/

/-- The profile fields the scorer reads.  `major` absent is the empty
string (falsy); `year` is the parsed `Number(...)` with `none` for an
absent field, and JavaScript truthiness makes a year of 0 behave like an
absent one; coordinates are present only when stored as numbers. -/
structure MatchProfile where
  interests : List String
  major : String
  year : Option ℤ
  locationLat : Option ℝ
  locationLng : Option ℝ

/-- The class-year contribution of `scoreMatch`: guarded by truthiness of
both years, then +10 for the same year, +6 for adjacent ones. -/
def yearBonus (uy cy : Option ℤ) : ℤ :=
  match uy, cy with
  | some a, some b =>
      if a = 0 ∨ b = 0 then 0
      else if a = b then 10 else if (a - b).natAbs = 1 then 6 else 0
  | _, _ => 0

/-- The shared-interest bonus of `scoreMatch`:
`Math.min(overlap.length * 10, 30)` over the RAW interest strings (the
scorer, unlike the proximity pipeline, does not normalize them). -/
def interestBonus (u c : List String) : ℤ :=
  min (((u.filter (fun i => c.contains i)).length : ℤ) * 10) 30

/-- The field-of-study bonus of `scoreMatch`: +15 when both majors are
truthy and equal case-insensitively. -/
def majorBonus (u c : String) : ℤ :=
  if u ≠ "" ∧ c ≠ "" ∧ jsLower u = jsLower c then 15 else 0

/-- The raw distance `scoreMatch` computes when all four coordinates are
numbers. -/
noncomputable def distanceKmOf (user cand : MatchProfile) : Option ℝ :=
  match user.locationLat, user.locationLng, cand.locationLat, cand.locationLng with
  | some ua, some ub, some ca, some cb => some (haversineDistance ua ub ca cb "km")
  | _, _, _, _ => none

open Classical in
/-- The distance adjustment of `scoreMatch`: without coordinates, no
change; with a truthy radius the distance exceeds, a flat −50; otherwise
the proximity boost `Math.max(0, 15 - Math.min(15, Math.floor(d)))`. -/
noncomputable def distanceAdjust (base : ℤ) (d : Option ℝ) (radiusKm : Option ℝ) : ℤ :=
  match d with
  | none => base
  | some d =>
      match radiusKm with
      | some r => if r ≠ 0 ∧ d > r then base - 50 else base + max 0 (15 - min 15 ⌊d⌋)
      | none => base + max 0 (15 - min 15 ⌊d⌋)

/-- `scoreMatch(user, candidate, radiusKm)` (matching routes, lines 13-51):
base 30, the shared-interest, major and class-year bonuses, then the
distance adjustment.  The result is `Math.min(score, 100)` paired with the
raw distance; there is no lower clamp. -/
noncomputable def scoreMatch (user cand : MatchProfile) (radiusKm : Option ℝ) :
    ℤ × Option ℝ :=
  let s3 : ℤ := 30 + interestBonus user.interests cand.interests +
    majorBonus user.major cand.major + yearBonus user.year cand.year
  let distanceKm := distanceKmOf user cand
  (min (distanceAdjust s3 distanceKm radiusKm) 100, distanceKm)

/-! ## Concrete instances used to exercise the definitions -/

/-- A configuration with geofencing disabled. -/
def settingsOff : GeofenceSettings :=
  { enabled := false, centerLat := .finite 0, centerLng := .finite 0
    radiusMeters := .finite 1000 }

/-- A configuration with geofencing enabled, centered at the origin with a
1000 m radius. -/
def settingsOn : GeofenceSettings :=
  { enabled := true, centerLat := .finite 0, centerLng := .finite 0
    radiusMeters := .finite 1000 }

/-- Environment with no `GEOFENCE_*` variables set. -/
def emptyEnv : EnvVars := { centerLat := none, centerLng := none, radiusMeters := none, enabled := none }

/-- A candidate profile: opted in, at the origin with a fresh timestamp and
the matching bucket key (`keyOf 16384 16384` is the origin's cell, equal to
`encodeJs 0 0` by `encodeJs_zero` below), majoring in "cs" with interest
"ai". -/
def profBob : Profile :=
  { locationEnabled := true, locationLat := some (.finite 0), locationLng := some (.finite 0)
    locationUpdatedAt := some 0, geohash := some (keyOf 16384 16384)
    major := "cs", interests := ["ai"] }

/-- The submitting profile as re-read after its write: opted in, same major
and interest as `profBob`. -/
def profAlice : Profile :=
  { locationEnabled := true, locationLat := some (.finite 0), locationLng := some (.finite 0)
    locationUpdatedAt := some 0, geohash := some (encodeJs (.finite 0) (.finite 0))
    major := "cs", interests := ["ai"] }

/-- A one-candidate profile store. -/
def dbOne : List (String × Profile) := [("u2", profBob)]

/-- A stored profile at (10, 10) whose bucket key matches its coordinate. -/
def profTen : Profile :=
  { locationEnabled := true, locationLat := some (.finite 10), locationLng := some (.finite 10)
    locationUpdatedAt := some 0, geohash := some (encodeJs (.finite 10) (.finite 10))
    major := "", interests := [] }

/-- A scorer profile with no interests, no major, no year, located at the
origin. -/
def mpLoner : MatchProfile :=
  { interests := [], major := "", year := none, locationLat := some 0, locationLng := some 0 }

/-- Scorer profile for the worked example: interests ai and music, major
Physics, year 2, at the origin. -/
def mpPhysA : MatchProfile :=
  { interests := ["ai", "music"], major := "Physics", year := some 2
    locationLat := some 0, locationLng := some 0 }

/-- Scorer profile for the worked example: same interests and major, year 3,
same location. -/
def mpPhysB : MatchProfile :=
  { interests := ["ai", "music"], major := "Physics", year := some 3
    locationLat := some 0, locationLng := some 0 }

/-! # Theorems -/

/-- The Haversine distance from a point to itself is zero (the `a` term
vanishes, so the angle is `2 * atan2 0 1 = 0`). -/
theorem haversineDistance_self (lat lon : ℝ) (unit : String) :
    haversineDistance lat lon lat lon unit = 0 := by
  unfold haversineDistance atan2
  simp [sub_self]

/-- The origin's latitude row. -/
theorem latIdx_zero : latIdx 0 = 16384 := by
  unfold latIdx cellLatSpan
  norm_num
  rfl

/-- The origin's longitude column. -/
theorem lonIdx_zero : lonIdx 0 = 16384 := by
  unfold lonIdx cellLonSpan
  norm_num
  rfl

/-- The bucket key of the origin, in cell-index form. -/
theorem encodeJs_zero : encodeJs (.finite 0) (.finite 0) = keyOf 16384 16384 := by
  unfold encodeJs geohashEncode boundRat
  rw [latIdx_zero, lonIdx_zero]

/-- The cell indices of (10, 10). -/
theorem idx_ten : latIdx 10 = 18204 ∧ lonIdx 10 = 17294 := by
  constructor
  · unfold latIdx cellLatSpan
    norm_num
    rfl
  · unfold lonIdx cellLonSpan
    norm_num
    rfl

/-- The cell indices of (20, 20). -/
theorem idx_twenty : latIdx 20 = 20024 ∧ lonIdx 20 = 18204 := by
  constructor
  · unfold latIdx cellLatSpan
    norm_num
    rfl
  · unfold lonIdx cellLonSpan
    norm_num
    rfl

/-- `Math.atan2` of a nonnegative first argument is nonnegative. -/
theorem atan2_nonneg {y : ℝ} (x : ℝ) (hy : 0 ≤ y) : 0 ≤ atan2 y x := by
  have harct : ∀ t : ℝ, 0 ≤ t → 0 ≤ Real.arctan t := by
    intro t ht
    have := Real.arctan_strictMono.monotone ht
    rwa [Real.arctan_zero] at this
  unfold atan2
  split_ifs with h1 h2 h3 h4 h5
  · exact harct _ (div_nonneg hy h1.le)
  · linarith [Real.neg_pi_div_two_lt_arctan (y / x), Real.pi_pos]
  · linarith [h3.2]
  · positivity
  · linarith [h5.2]
  · exact le_refl 0

/-- The Haversine distance is nonnegative for every input. -/
theorem haversineDistance_nonneg (lat1 lon1 lat2 lon2 : ℝ) (unit : String) :
    0 ≤ haversineDistance lat1 lon1 lat2 lon2 unit := by
  unfold haversineDistance
  refine mul_nonneg ?_ (mul_nonneg (by norm_num) (atan2_nonneg _ (Real.sqrt_nonneg _)))
  split_ifs <;> norm_num

/-- The scorer's raw distance, when present, is nonnegative. -/
theorem distanceKmOf_nonneg (u c : MatchProfile) (x : ℝ)
    (h : distanceKmOf u c = some x) : 0 ≤ x := by
  unfold distanceKmOf at h
  split at h
  · cases h
    exact haversineDistance_nonneg _ _ _ _ _
  · cases h

/-- The shared-interest bonus lies in `[0, 30]`. -/
theorem interestBonus_bounds (u c : List String) :
    0 ≤ interestBonus u c ∧ interestBonus u c ≤ 30 := by
  unfold interestBonus
  exact ⟨le_min (by positivity) (by norm_num), min_le_right _ _⟩

/-- The major bonus lies in `[0, 15]`. -/
theorem majorBonus_bounds (u c : String) :
    0 ≤ majorBonus u c ∧ majorBonus u c ≤ 15 := by
  unfold majorBonus
  split_ifs <;> norm_num

/-- The class-year bonus lies in `[0, 10]`. -/
theorem yearBonus_bounds (uy cy : Option ℤ) :
    0 ≤ yearBonus uy cy ∧ yearBonus uy cy ≤ 10 := by
  unfold yearBonus
  rcases uy with _ | a <;> rcases cy with _ | b <;>
    first
    | exact ⟨le_refl 0, by norm_num⟩
    | (constructor <;> (dsimp only; split_ifs <;> norm_num))

/-- The distance adjustment maps a base in `[30, 85]` into `[-20, 100]`
(the −50 penalty can push below 0 but never below −20; the boost adds at
most 15 because a genuine distance is nonnegative). -/
theorem distanceAdjust_bounds (base : ℤ) (d radiusKm : Option ℝ)
    (hlo : 30 ≤ base) (hhi : base ≤ 85) (hd : ∀ x, d = some x → 0 ≤ x) :
    -20 ≤ distanceAdjust base d radiusKm ∧ distanceAdjust base d radiusKm ≤ 100 := by
  rcases d with _ | dd
  · simp only [distanceAdjust]
    omega
  · have hdd : (0 : ℝ) ≤ dd := hd dd rfl
    have hfl : 0 ≤ ⌊dd⌋ := Int.floor_nonneg.mpr hdd
    have hmax1 : 0 ≤ max 0 (15 - min 15 ⌊dd⌋) := le_max_left _ _
    have hmax2 : max 0 (15 - min 15 ⌊dd⌋) ≤ 15 := by
      refine max_le (by norm_num) ?_
      have h0 : (0 : ℤ) ≤ min 15 ⌊dd⌋ := le_min (by norm_num) hfl
      omega
    rcases radiusKm with _ | rr
    · simp only [distanceAdjust]
      omega
    · simp only [distanceAdjust]
      split_ifs <;> omega

/-- C7 (amended): for every pair of profiles and every optional radius, the
score returned by `scoreMatch` is at most 100 and at least −20; the lower
bound 0 of the claim is NOT enforced (see the counterexample), −20 being
the true lower bound reached through the flat −50 out-of-radius penalty. -/
theorem scoreMatch_bounded (u c : MatchProfile) (r : Option ℝ) :
    -20 ≤ (scoreMatch u c r).1 ∧ (scoreMatch u c r).1 ≤ 100 := by
  unfold scoreMatch
  have hi := interestBonus_bounds u.interests c.interests
  have hm := majorBonus_bounds u.major c.major
  have hy := yearBonus_bounds u.year c.year
  have hda := distanceAdjust_bounds
    (30 + interestBonus u.interests c.interests + majorBonus u.major c.major +
      yearBonus u.year c.year)
    (distanceKmOf u c) r (by omega) (by omega)
    (fun x hx => distanceKmOf_nonneg u c x hx)
  exact ⟨le_min hda.1 (by norm_num), min_le_right _ _⟩

/-- C7 (counterexample): with no shared signals, co-located profiles and a
truthy radius of −1 km (any truthy radius below the distance behaves the
same), the raw sum is 30 − 50 = −20 and `scoreMatch` returns −20, a
negative score — the claim that the scorer clamps to `[0, 100]` fails. -/
theorem scoreMatch_returns_negative :
    (scoreMatch mpLoner mpLoner (some (-1))).1 = -20 ∧
      (scoreMatch mpLoner mpLoner (some (-1))).1 < 0 := by
  have hd : distanceKmOf mpLoner mpLoner = some 0 := by
    simp [distanceKmOf, mpLoner, haversineDistance_self]
  have hbase : 30 + interestBonus mpLoner.interests mpLoner.interests +
      majorBonus mpLoner.major mpLoner.major + yearBonus mpLoner.year mpLoner.year = 30 := by
    simp [interestBonus, majorBonus, yearBonus, mpLoner]
  have hadj : distanceAdjust 30 (some 0) (some (-1)) = -20 := by
    unfold distanceAdjust
    dsimp only
    rw [if_pos (by norm_num : (-1 : ℝ) ≠ 0 ∧ (0 : ℝ) > -1)]
    norm_num
  have hdef : scoreMatch mpLoner mpLoner (some (-1)) =
      (min (distanceAdjust (30 + interestBonus mpLoner.interests mpLoner.interests +
        majorBonus mpLoner.major mpLoner.major + yearBonus mpLoner.year mpLoner.year)
        (distanceKmOf mpLoner mpLoner) (some (-1))) 100, distanceKmOf mpLoner mpLoner) := rfl
  rw [hdef, hd, hbase, hadj]
  norm_num

/-- C8: the worked example — identical interests ai and music, major
Physics on both sides, years 2 and 3, distance 0 km, no radius — scores
exactly 86 = 30 + 20 + 15 + 6 + 15, with the raw distance 0 surfaced. -/
theorem scoreMatch_worked_example :
    scoreMatch mpPhysA mpPhysB none = (86, some 0) := by
  have hd : distanceKmOf mpPhysA mpPhysB = some 0 := by
    simp [distanceKmOf, mpPhysA, mpPhysB, haversineDistance_self]
  have hbase : 30 + interestBonus mpPhysA.interests mpPhysB.interests +
      majorBonus mpPhysA.major mpPhysB.major + yearBonus mpPhysA.year mpPhysB.year = 71 := by
    simp [interestBonus, majorBonus, yearBonus, mpPhysA, mpPhysB, jsLower]
  have hadj : distanceAdjust 71 (some 0) none = 86 := by
    unfold distanceAdjust
    dsimp only
    norm_num
  have hdef : scoreMatch mpPhysA mpPhysB none =
      (min (distanceAdjust (30 + interestBonus mpPhysA.interests mpPhysB.interests +
        majorBonus mpPhysA.major mpPhysB.major + yearBonus mpPhysA.year mpPhysB.year)
        (distanceKmOf mpPhysA mpPhysB) none) 100, distanceKmOf mpPhysA mpPhysB) := rfl
  rw [hdef, hd, hbase, hadj]
  norm_num

/-- C5: the geofence evaluator returns true for every coordinate when the
configuration is disabled, and when it is enabled it returns true exactly
when the Haversine distance from the (finite) coordinate to the (finite)
configured center is at most the configured radius. -/
theorem insideGeofence_spec (s : GeofenceSettings) (lat lng : JsNum) :
    (s.enabled = false → insideGeofence s lat lng) ∧
    (∀ la ln ca cn r : ℚ, s.enabled = true → lat = .finite la → lng = .finite ln →
      s.centerLat = .finite ca → s.centerLng = .finite cn → s.radiusMeters = .finite r →
      (insideGeofence s lat lng ↔
        haversineDistance (la : ℝ) (ln : ℝ) (ca : ℝ) (cn : ℝ) "m" ≤ (r : ℝ))) := by
  constructor
  · intro h
    unfold insideGeofence
    rw [h]
    trivial
  · intro la ln ca cn r he hlat hlng hca hcn hr
    unfold insideGeofence
    rw [he, hlat, hlng, hca, hcn, hr]
    simp [pointInsideGeofencePure, jsDistM, jsLeNum, JsNum.isNaN]

/-- Witness for C5 at concrete inputs: a disabled geofence admits even a
`NaN` coordinate, and the enabled origin-centered fence admits the origin
iff its (zero) self-distance is within 1000 m. -/
theorem insideGeofence_spec_witness :
    insideGeofence settingsOff .nan .nan ∧
      (insideGeofence settingsOn (.finite 0) (.finite 0) ↔
        haversineDistance ((0 : ℚ) : ℝ) ((0 : ℚ) : ℝ) ((0 : ℚ) : ℝ) ((0 : ℚ) : ℝ) "m" ≤
          ((1000 : ℚ) : ℝ)) :=
  ⟨(insideGeofence_spec settingsOff .nan .nan).1 rfl,
   (insideGeofence_spec settingsOn (.finite 0) (.finite 0)).2 0 0 0 0 1000
     rfl rfl rfl rfl rfl rfl⟩

/-- C6 (amended): the location-update path's settings reader yields
`enabled = false` when there is no stored document and no environment
configuration; a retrieval failure is recovered locally by the same
environment fallback whatever the stored document holds, so it never
surfaces as a failure of the location update.  The administrator read
endpoint, however, diverges from the claim: with no stored document its
defaults have `enabled = true`, and a retrieval failure propagates as an
error instead of falling back. -/
theorem geofenceSettings_defaults (doc : Option GeofenceDoc) (env : EnvVars) :
    (getGeofenceSettings false none emptyEnv).enabled = false ∧
    (getGeofenceSettings true doc emptyEnv).enabled = false ∧
    getGeofenceSettings true doc env = fallbackGeofenceSettings env ∧
    (∃ v, adminGeofenceRead (.ok none) env = .ok v ∧ v.enabled = true) ∧
    adminGeofenceRead (.error ()) env = .error () := by
  refine ⟨rfl, ?_, ?_, ⟨_, rfl, rfl⟩, rfl⟩
  · rcases doc with _ | d <;> rfl
  · rcases doc with _ | d <;> rfl

/-- C6 (counterexample): with no stored settings document and no
environment configuration, the administrator read endpoint answers with
`enabled = true` — not the claimed `false` default — and a failing
retrieval is surfaced as an error rather than recovered, while the
location-update reader in the same state reports `enabled = false`. -/
theorem adminGeofenceRead_diverges :
    (∃ v, adminGeofenceRead (.ok none) emptyEnv = .ok v ∧ v.enabled = true) ∧
    adminGeofenceRead (.error ()) emptyEnv = .error () ∧
    (getGeofenceSettings false none emptyEnv).enabled = false :=
  ⟨⟨_, rfl, rfl⟩, rfl, rfl⟩

/-- C1 (amended): a location request is rejected — a 400 response with no
profile write and no suggestions — whenever a coordinate fails to coerce to
a number or coerces to `NaN`; and every accepted pair is exactly the
coerced input with both components non-`NaN`.  (No finiteness or
geographic-range check is performed; see the counterexample.) -/
theorem locationValidation_spec (lf gf : LocField) (s : GeofenceSettings)
    (db : List (String × Profile)) (uid : String) (now : ℤ) :
    (validateLatLng lf gf = none →
      handleLocation s db uid lf gf now =
        { status := 400, persisted := none, suggestions := [] }) ∧
    (∀ a b, validateLatLng lf gf = some (a, b) →
      coerceNum lf = some a ∧ coerceNum gf = some b ∧
        a.isNaN = false ∧ b.isNaN = false) := by
  constructor
  · intro h
    unfold handleLocation
    rw [h]
  · intro a b h
    unfold validateLatLng at h
    rcases hl : coerceNum lf with _ | x
    · rw [hl] at h
      cases h
    · rcases hg : coerceNum gf with _ | y
      · rw [hl, hg] at h
        cases h
      · rw [hl, hg] at h
        dsimp only at h
        by_cases hb : (x.isNaN || y.isNaN) = true
        · rw [if_pos hb] at h
          cases h
        · rw [if_neg hb] at h
          injection h with h2
          rw [Prod.mk.injEq] at h2
          obtain ⟨rfl, rfl⟩ := h2
          simp only [Bool.or_eq_true, not_or, Bool.not_eq_true] at hb
          exact ⟨rfl, rfl, hb.1, hb.2⟩

/-- Witness for C1 at a concrete input: a body without numeric fields is
rejected with a 400 and no write. -/
theorem locationValidation_spec_witness :
    handleLocation settingsOff [] "u1" .other .other 0 =
      { status := 400, persisted := none, suggestions := [] } :=
  (locationValidation_spec .other .other settingsOff [] "u1" 0).1 rfl

/-- C1 (counterexample): latitude 200 — outside the valid range [-90, 90]
— passes validation unchanged, and with geofencing disabled the request
succeeds and the profile write occurs, refuting the claim that out-of-range
coordinates are rejected with a client error and no write. -/
theorem outOfRange_accepted :
    validateLatLng (.num (.finite 200)) (.num (.finite 0)) =
      some (.finite 200, .finite 0) ∧
    ((200 : ℚ) > 90) ∧
    (handleLocation settingsOff [] "u1" (.num (.finite 200)) (.num (.finite 0)) 0).status
      = 200 ∧
    (handleLocation settingsOff [] "u1" (.num (.finite 200)) (.num (.finite 0)) 0).persisted
      = some (buildLocationUpdateIndexed (.finite 200) (.finite 0) 0) :=
  ⟨rfl, by norm_num, rfl, rfl⟩

/-- The accepted path always persists precisely the indexed update object. -/
theorem persistAndSuggest_persisted (s : GeofenceSettings) (db : List (String × Profile))
    (uid : String) (a b : JsNum) (now : ℤ) :
    (persistAndSuggest s db uid a b now).persisted =
      some (buildLocationUpdateIndexed a b now) := by
  unfold persistAndSuggest
  dsimp only
  split_ifs <;> rfl

/-- C2 (amended, indexed variant): whatever update record the indexed
location route persists carries a bucket key, and that key is exactly the
encoding of the coordinate persisted in the same write — the write is
bucket-consistent by construction. -/
theorem indexedWrite_bucket_consistent (s : GeofenceSettings)
    (db : List (String × Profile)) (uid : String) (lf gf : LocField) (now : ℤ)
    (u : UpdateRec) (h : (handleLocation s db uid lf gf now).persisted = some u) :
    u.geohash = some (encodeJs u.locationLat u.locationLng) := by
  rcases hv : validateLatLng lf gf with _ | ⟨a, b⟩ <;> unfold handleLocation at h <;>
    rw [hv] at h
  · cases h
  · dsimp only at h
    cases hse : s.enabled
    · rw [hse] at h
      dsimp only at h
      rw [persistAndSuggest_persisted] at h
      injection h with h2
      subst h2
      rfl
    · rw [hse] at h
      dsimp only at h
      by_cases hg : insideGeofence s a b
      · rw [if_pos hg, persistAndSuggest_persisted] at h
        injection h with h2
        subst h2
        rfl
      · rw [if_neg hg] at h
        cases h

/-- Witness for C2 at a concrete input: an accepted origin update persists
a record whose stored key encodes its own stored coordinate. -/
theorem indexedWrite_bucket_consistent_witness :
    (buildLocationUpdateIndexed (.finite 0) (.finite 0) 0).geohash =
      some (encodeJs (buildLocationUpdateIndexed (.finite 0) (.finite 0) 0).locationLat
        (buildLocationUpdateIndexed (.finite 0) (.finite 0) 0).locationLng) :=
  indexedWrite_bucket_consistent settingsOff [] "u1"
    (.num (.finite 0)) (.num (.finite 0)) 0 _ rfl

/-- C2 (counterexample): the legacy variant's update object carries no
bucket key, so merging it over a profile stored at (10, 10) moves the
coordinate to (20, 20) while the stored key still encodes (10, 10) — a
stale bucket key persists after a coordinate change. -/
theorem legacyWrite_stale_bucket :
    (mergeLocationUpdate profTen
        (buildLocationUpdateLegacy (.finite 20) (.finite 20) 60000)).locationLat =
      some (.finite 20) ∧
    (mergeLocationUpdate profTen
        (buildLocationUpdateLegacy (.finite 20) (.finite 20) 60000)).geohash =
      some (encodeJs (.finite 10) (.finite 10)) ∧
    encodeJs (.finite 10) (.finite 10) ≠ encodeJs (.finite 20) (.finite 20) := by
  refine ⟨rfl, rfl, ?_⟩
  have h10 : encodeJs (.finite 10) (.finite 10) = keyOf 17294 18204 := by
    unfold encodeJs geohashEncode boundRat
    rw [idx_ten.1, idx_ten.2]
  have h20 : encodeJs (.finite 20) (.finite 20) = keyOf 18204 20024 := by
    unfold encodeJs geohashEncode boundRat
    rw [idx_twenty.1, idx_twenty.2]
  rw [h10, h20]
  decide

/-- Folding preserves an invariant when every list element respects the
step property. -/
theorem foldl_preserve {α β : Type} (f : β → α → β) (I : β → Prop) (R : α → Prop)
    (hstep : ∀ st x, R x → I st → I (f st x)) :
    ∀ (l : List α) (st : β), (∀ x ∈ l, R x) → I st → I (l.foldl f st) := by
  intro l
  induction l with
  | nil =>
      intro st _ hst
      exact hst
  | cons x xs ih =>
      intro st hl hst
      exact ih (f st x) (fun y hy => hl y (List.mem_cons_of_mem _ hy))
        (hstep st x (hl x (List.mem_cons_self _ _)) hst)

/-- Unfolding equation for the candidate gathering. -/
theorem computeSuggestions_def (s : GeofenceSettings) (db : List (String × Profile))
    (uid : String) (cur : Profile) (a b : JsNum) (now : ℤ) :
    computeSuggestions s db uid cur a b now =
      (((nineKeysAt (boundRat a) (boundRat b)).map
          (fun h => db.filter (fun e => e.2.locationEnabled && e.2.geohash == some h))).foldl
        (fun st snap => snap.foldl (processCandidate s now cur a b) st) ([uid], [])).2 := rfl

/-- One candidate step either leaves the suggestion list alone or appends
the processed document's suggestion, and only when the checks pass. -/
theorem processCandidate_snd (s : GeofenceSettings) (now : ℤ) (cur : Profile)
    (a b : JsNum) (st : List String × List Suggestion) (doc : String × Profile) :
    (processCandidate s now cur a b st doc).2 = st.2 ∨
      ((processCandidate s now cur a b st doc).2 =
        st.2 ++ [{ userId := doc.1, distanceMeters := candDist a b doc.2
                   commonInterests := sharedInterests cur doc.2 }] ∧
        passesChecks s now cur a b doc.2) := by
  unfold processCandidate
  split_ifs with h1 h2
  · exact Or.inl rfl
  · exact Or.inr ⟨rfl, h2⟩
  · exact Or.inl rfl

/-- Every emitted suggestion names a stored profile that was returned by
the opt-in-filtered bucket query and that passed every candidate check. -/
theorem computeSuggestions_sound (s : GeofenceSettings) (db : List (String × Profile))
    (uid : String) (cur : Profile) (a b : JsNum) (now : ℤ) :
    ∀ sug ∈ computeSuggestions s db uid cur a b now,
      ∃ p, (sug.userId, p) ∈ db ∧ p.locationEnabled = true ∧
        passesChecks s now cur a b p := by
  have hstep : ∀ (st2 : List String × List Suggestion) (doc : String × Profile),
      (doc ∈ db ∧ doc.2.locationEnabled = true) →
      (∀ sug ∈ st2.2, ∃ p, (sug.userId, p) ∈ db ∧ p.locationEnabled = true ∧
        passesChecks s now cur a b p) →
      ∀ sug ∈ (processCandidate s now cur a b st2 doc).2,
        ∃ p, (sug.userId, p) ∈ db ∧ p.locationEnabled = true ∧
          passesChecks s now cur a b p := by
    intro st2 doc hdoc hst2 sug hsug
    rcases processCandidate_snd s now cur a b st2 doc with heq | ⟨heq, hpass⟩
    · rw [heq] at hsug
      exact hst2 sug hsug
    · rw [heq] at hsug
      rcases List.mem_append.mp hsug with hold | hnew
      · exact hst2 sug hold
      · rcases List.mem_singleton.mp hnew with rfl
        exact ⟨doc.2, hdoc.1, hdoc.2, hpass⟩
  have hinner : ∀ (st : List String × List Suggestion)
      (snap : List (String × Profile)),
      (∀ doc ∈ snap, doc ∈ db ∧ doc.2.locationEnabled = true) →
      (∀ sug ∈ st.2, ∃ p, (sug.userId, p) ∈ db ∧ p.locationEnabled = true ∧
        passesChecks s now cur a b p) →
      ∀ sug ∈ (snap.foldl (processCandidate s now cur a b) st).2,
        ∃ p, (sug.userId, p) ∈ db ∧ p.locationEnabled = true ∧
          passesChecks s now cur a b p := by
    intro st snap hsnap hst
    exact foldl_preserve (processCandidate s now cur a b)
      (fun st2 => ∀ sug ∈ st2.2, ∃ p, (sug.userId, p) ∈ db ∧ p.locationEnabled = true ∧
        passesChecks s now cur a b p)
      (fun doc => doc ∈ db ∧ doc.2.locationEnabled = true)
      hstep snap st hsnap hst
  have hsnaps : ∀ snap ∈ (nineKeysAt (boundRat a) (boundRat b)).map
      (fun h => db.filter (fun e => e.2.locationEnabled && e.2.geohash == some h)),
      ∀ doc ∈ snap, doc ∈ db ∧ doc.2.locationEnabled = true := by
    intro snap hsnap doc hdoc
    rw [List.mem_map] at hsnap
    obtain ⟨h, _, rfl⟩ := hsnap
    have hmf := List.mem_filter.mp hdoc
    refine ⟨hmf.1, ?_⟩
    have hb := hmf.2
    rw [Bool.and_eq_true] at hb
    exact hb.1
  have key := foldl_preserve
    (fun st snap => snap.foldl (processCandidate s now cur a b) st)
    (fun st : List String × List Suggestion =>
      ∀ sug ∈ st.2, ∃ p, (sug.userId, p) ∈ db ∧ p.locationEnabled = true ∧
        passesChecks s now cur a b p)
    (fun snap => ∀ doc ∈ snap, doc ∈ db ∧ doc.2.locationEnabled = true)
    (fun st snap hr hi => hinner st snap hr hi)
    ((nineKeysAt (boundRat a) (boundRat b)).map
      (fun h => db.filter (fun e => e.2.locationEnabled && e.2.geohash == some h)))
    ([uid], []) hsnaps
    (fun sug hsug => absurd hsug (List.not_mem_nil sug))
  rw [computeSuggestions_def]
  exact key

/-- A candidate that passes the checks carries a parsed timestamp at most
5 minutes (300000 ms) old. -/
theorem passesChecks_recent {s : GeofenceSettings} {now : ℤ} {cur : Profile}
    {a b : JsNum} {p : Profile} (h : passesChecks s now cur a b p) :
    ∃ ts, p.locationUpdatedAt = some ts ∧ now - ts ≤ 300000 := by
  unfold passesChecks at h
  rcases hl : p.locationLat with _ | la
  · rw [hl] at h
    exact h.elim
  · rcases hg : p.locationLng with _ | ln
    · rw [hl, hg] at h
      exact h.elim
    · rcases ht : p.locationUpdatedAt with _ | ts
      · rw [hl, hg, ht] at h
        exact h.elim
      · rw [hl, hg, ht] at h
        exact ⟨ts, rfl, h.1⟩

/-- C3: a profile with the location-sharing flag not `true` never appears
in an emitted suggestion — every suggested candidate is stored with
`locationEnabled = true` (the bucket query filters on it) — and a
submitter whose stored profile does not have the flag `true` still gets
the 200 acknowledgement with the persisted update, but with no candidate
search and no suggestions. -/
theorem optIn_required (s : GeofenceSettings) (db : List (String × Profile))
    (uid : String) (cur : Profile) (a b : JsNum) (now : ℤ) :
    (∀ sug ∈ computeSuggestions s db uid cur a b now,
      ∃ p, (sug.userId, p) ∈ db ∧ p.locationEnabled = true) ∧
    (((dbLookup db uid).getD defaultProfile).locationEnabled = false →
      persistAndSuggest s db uid a b now =
        { status := 200, persisted := some (buildLocationUpdateIndexed a b now)
          suggestions := [] }) := by
  constructor
  · intro sug hsug
    obtain ⟨p, hp1, hp2, _⟩ := computeSuggestions_sound s db uid cur a b now sug hsug
    exact ⟨p, hp1, hp2⟩
  · intro h
    unfold persistAndSuggest
    dsimp only
    rw [if_neg]
    intro hcontra
    have : ((dbLookup db uid).getD defaultProfile).locationEnabled = true := hcontra
    rw [h] at this
    cases this

/-- C4: every emitted suggestion's candidate carries a stored last-update
timestamp within 5 minutes of the handling time `now`; in particular a
candidate whose timestamp is 6 minutes (360000 ms) old can never appear. -/
theorem recency_required (s : GeofenceSettings) (db : List (String × Profile))
    (uid : String) (cur : Profile) (a b : JsNum) (now : ℤ) :
    ∀ sug ∈ computeSuggestions s db uid cur a b now,
      ∃ p ts, (sug.userId, p) ∈ db ∧ p.locationUpdatedAt = some ts ∧
        now - ts ≤ 300000 := by
  intro sug hsug
  obtain ⟨p, hp1, _, hpass⟩ := computeSuggestions_sound s db uid cur a b now sug hsug
  obtain ⟨ts, hts, hrec⟩ := passesChecks_recent hpass
  exact ⟨p, ts, hp1, hts, hrec⟩

/-- C10: over one location-update event, the seen-identifier set
(initialized with the submitter) guarantees that the emitted suggestion
list names each other user at most once and never names the submitter. -/
theorem candidate_dedup (s : GeofenceSettings) (db : List (String × Profile))
    (uid : String) (cur : Profile) (a b : JsNum) (now : ℤ) :
    ((computeSuggestions s db uid cur a b now).map (fun sug => sug.userId)).Nodup ∧
      uid ∉ (computeSuggestions s db uid cur a b now).map (fun sug => sug.userId) := by
  have hstep : ∀ (st2 : List String × List Suggestion) (doc : String × Profile),
      True →
      ((st2.2.map (fun sug => sug.userId)).Nodup ∧
        (∀ x ∈ st2.2.map (fun sug => sug.userId), x ∈ st2.1) ∧ uid ∈ st2.1 ∧
        uid ∉ st2.2.map (fun sug => sug.userId)) →
      (((processCandidate s now cur a b st2 doc).2.map (fun sug => sug.userId)).Nodup ∧
        (∀ x ∈ (processCandidate s now cur a b st2 doc).2.map (fun sug => sug.userId),
          x ∈ (processCandidate s now cur a b st2 doc).1) ∧
        uid ∈ (processCandidate s now cur a b st2 doc).1 ∧
        uid ∉ (processCandidate s now cur a b st2 doc).2.map (fun sug => sug.userId)) := by
    intro st2 doc _ hst2
    obtain ⟨hnodup, hsub, huid, hnot⟩ := hst2
    unfold processCandidate
    split_ifs with h1 h2
    · exact ⟨hnodup, hsub, huid, hnot⟩
    · refine ⟨?_, ?_, ?_, ?_⟩
      · rw [List.map_append, List.nodup_append]
        refine ⟨hnodup, List.nodup_singleton _, ?_⟩
        intro x hx hx2
        rw [List.map_singleton, List.mem_singleton] at hx2
        subst hx2
        exact h1 (hsub _ hx)
      · intro x hx
        rw [List.map_append, List.mem_append] at hx
        rcases hx with hx | hx
        · exact List.mem_cons_of_mem _ (hsub x hx)
        · rw [List.map_singleton, List.mem_singleton] at hx
          subst hx
          exact List.mem_cons_self _ _
      · exact List.mem_cons_of_mem _ huid
      · intro hx
        rw [List.map_append, List.mem_append] at hx
        rcases hx with hx | hx
        · exact hnot hx
        · rw [List.map_singleton, List.mem_singleton] at hx
          apply h1
          have hx2 : uid = doc.1 := hx
          rw [← hx2]
          exact huid
    · exact ⟨hnodup, fun x hx => List.mem_cons_of_mem _ (hsub x hx),
        List.mem_cons_of_mem _ huid, hnot⟩
  have hinner : ∀ (st : List String × List Suggestion)
      (snap : List (String × Profile)), True →
      ((st.2.map (fun sug => sug.userId)).Nodup ∧
        (∀ x ∈ st.2.map (fun sug => sug.userId), x ∈ st.1) ∧ uid ∈ st.1 ∧
        uid ∉ st.2.map (fun sug => sug.userId)) →
      (((snap.foldl (processCandidate s now cur a b) st).2.map
          (fun sug => sug.userId)).Nodup ∧
        (∀ x ∈ (snap.foldl (processCandidate s now cur a b) st).2.map
          (fun sug => sug.userId), x ∈ (snap.foldl (processCandidate s now cur a b) st).1) ∧
        uid ∈ (snap.foldl (processCandidate s now cur a b) st).1 ∧
        uid ∉ (snap.foldl (processCandidate s now cur a b) st).2.map
          (fun sug => sug.userId)) := by
    intro st snap _ hst
    exact foldl_preserve (processCandidate s now cur a b)
      (fun st2 => (st2.2.map (fun sug => sug.userId)).Nodup ∧
        (∀ x ∈ st2.2.map (fun sug => sug.userId), x ∈ st2.1) ∧ uid ∈ st2.1 ∧
        uid ∉ st2.2.map (fun sug => sug.userId))
      (fun _ => True) hstep snap st (fun _ _ => trivial) hst
  have key := foldl_preserve
    (fun st snap => snap.foldl (processCandidate s now cur a b) st)
    (fun st : List String × List Suggestion =>
      (st.2.map (fun sug => sug.userId)).Nodup ∧
        (∀ x ∈ st.2.map (fun sug => sug.userId), x ∈ st.1) ∧ uid ∈ st.1 ∧
        uid ∉ st.2.map (fun sug => sug.userId))
    (fun _ => True) hinner
    ((nineKeysAt (boundRat a) (boundRat b)).map
      (fun h => db.filter (fun e => e.2.locationEnabled && e.2.geohash == some h)))
    ([uid], []) (fun _ _ => trivial)
    ⟨List.nodup_nil, fun x hx => absurd hx (List.not_mem_nil x),
      List.mem_singleton_self uid, fun hx => absurd hx (List.not_mem_nil uid)⟩
  rw [computeSuggestions_def]
  exact ⟨key.1, key.2.2.2⟩

/-- The self-distance at the origin, through the `JsNum` wrapper. -/
theorem jsDistM_origin :
    jsDistM (.finite 0) (.finite 0) (.finite 0) (.finite 0) = some 0 := by
  simp only [jsDistM]
  rw [haversineDistance_self]

/-- The colocated opted-in candidate passes every check of the pipeline. -/
theorem profBob_passes :
    passesChecks settingsOff 0 profAlice (.finite 0) (.finite 0) profBob := by
  unfold passesChecks profBob
  dsimp only
  refine ⟨by norm_num, trivial, ?_, by decide, by decide⟩
  rw [jsDistM_origin]
  unfold distPass
  norm_num

/-- Full evaluation of the candidate pipeline on a concrete store: the
origin submitter, with the opted-in colocated candidate "u2", obtains
exactly one suggestion naming "u2" at distance 0 with the shared interest
"ai". -/
theorem computeSuggestions_eval :
    computeSuggestions settingsOff dbOne "u1" profAlice (.finite 0) (.finite 0) 0 =
      [{ userId := "u2", distanceMeters := some 0, commonInterests := ["ai"] }] := by
  have hshared : sharedInterests profAlice profBob = ["ai"] := by decide
  have hcd : candDist (.finite 0) (.finite 0) profBob = some 0 := by
    unfold candDist profBob
    dsimp only
    exact jsDistM_origin
  have hstep1 : processCandidate settingsOff 0 profAlice (.finite 0) (.finite 0)
      (["u1"], []) ("u2", profBob) =
      (["u2", "u1"],
        [{ userId := "u2", distanceMeters := some 0, commonInterests := ["ai"] }]) := by
    unfold processCandidate
    dsimp only
    rw [if_neg (by decide : ¬ ("u2" ∈ (["u1"] : List String))), if_pos profBob_passes,
      hcd, hshared]
    rfl
  have hnine : nineKeysAt (boundRat (.finite 0)) (boundRat (.finite 0)) =
      keyOf 16384 16384 :: neighborKeys 16384 16384 := by
    show nineKeysAt 0 0 = _
    unfold nineKeysAt geohashEncode
    rw [latIdx_zero, lonIdx_zero]
  have hsnap0 : dbOne.filter
      (fun e => e.2.locationEnabled && e.2.geohash == some (keyOf 16384 16384)) =
      [("u2", profBob)] := by decide
  have hsnapsN : (neighborKeys 16384 16384).map
      (fun h => dbOne.filter (fun e => e.2.locationEnabled && e.2.geohash == some h)) =
      [[], [], [], [], [], [], [], []] := by decide
  rw [computeSuggestions_def, hnine]
  simp only [List.map_cons]
  rw [hsnap0, hsnapsN]
  simp only [List.foldl_cons, List.foldl_nil]
  rw [hstep1]

/-! ## Neighbor-completeness of the bucket index (C9) -/

/-- Dividing an inequality shifted by the denominator. -/
theorem div_le_div_add_one (a b d : ℚ) (hd : 0 < d) (h : a ≤ b + d) :
    a / d ≤ b / d + 1 := by
  have h2 : a / d ≤ (b + d) / d := by
    rw [div_le_div_iff_of_pos_right hd]
    exact h
  calc a / d ≤ (b + d) / d := h2
    _ = b / d + d / d := add_div b d d
    _ = b / d + 1 := by rw [div_self hd.ne']

/-- Two coordinates at most one cell span apart land on floor cells at most
one index apart. -/
theorem floor_div_close (x y off d : ℚ) (hd : 0 < d) (h : |x - y| ≤ d) :
    ⌊(x + off) / d⌋ ≤ ⌊(y + off) / d⌋ + 1 ∧ ⌊(y + off) / d⌋ ≤ ⌊(x + off) / d⌋ + 1 := by
  rw [abs_le] at h
  constructor
  · have hle : (x + off) / d ≤ (y + off) / d + 1 :=
      div_le_div_add_one (x + off) (y + off) d hd (by linarith [h.2])
    calc ⌊(x + off) / d⌋ ≤ ⌊(y + off) / d + 1⌋ := Int.floor_le_floor hle
      _ = ⌊(y + off) / d⌋ + 1 := Int.floor_add_one _
  · have hle : (y + off) / d ≤ (x + off) / d + 1 :=
      div_le_div_add_one (y + off) (x + off) d hd (by linarith [h.1])
    calc ⌊(y + off) / d⌋ ≤ ⌊(x + off) / d + 1⌋ := Int.floor_le_floor hle
      _ = ⌊(x + off) / d⌋ + 1 := Int.floor_add_one _

/-- The latitude index as an integer clamp of the raw floor cell. -/
theorem latIdx_cast (lat : ℚ) :
    ((latIdx lat : ℕ) : ℤ) = min 32767 (max ⌊(lat + 90) / cellLatSpan⌋ 0) := by
  unfold latIdx
  rw [Nat.cast_min, Int.toNat_eq_max]
  rfl

/-- The longitude index as an integer clamp of the raw floor cell. -/
theorem lonIdx_cast (lon : ℚ) :
    ((lonIdx lon : ℕ) : ℤ) = min 32767 (max ⌊(lon + 180) / cellLonSpan⌋ 0) := by
  unfold lonIdx
  rw [Nat.cast_min, Int.toNat_eq_max]
  rfl

/-- Latitude indices stay in the 15-bit range. -/
theorem latIdx_le (lat : ℚ) : latIdx lat ≤ 32767 := min_le_left _ _

/-- Longitude indices stay in the 15-bit range. -/
theorem lonIdx_le (lon : ℚ) : lonIdx lon ≤ 32767 := min_le_left _ _

/-- Latitudes within one cell span of each other index into adjacent (or
equal) rows. -/
theorem latIdx_close {lat1 lat2 : ℚ} (h : |lat1 - lat2| ≤ cellLatSpan) :
    ((latIdx lat2 : ℕ) : ℤ) ≤ latIdx lat1 + 1 ∧
      ((latIdx lat1 : ℕ) : ℤ) ≤ latIdx lat2 + 1 := by
  have hf := floor_div_close lat2 lat1 90 cellLatSpan
    (by norm_num [cellLatSpan]) (by rwa [abs_sub_comm])
  rw [latIdx_cast lat1, latIdx_cast lat2]
  omega

/-- Longitudes within one cell span of each other index into adjacent (or
equal) columns. -/
theorem lonIdx_close {lon1 lon2 : ℚ} (h : |lon1 - lon2| ≤ cellLonSpan) :
    ((lonIdx lon2 : ℕ) : ℤ) ≤ lonIdx lon1 + 1 ∧
      ((lonIdx lon1 : ℕ) : ℤ) ≤ lonIdx lon2 + 1 := by
  have hf := floor_div_close lon2 lon1 180 cellLonSpan
    (by norm_num [cellLonSpan]) (by rwa [abs_sub_comm])
  rw [lonIdx_cast lon1, lonIdx_cast lon2]
  omega

/-- Wrapping is the identity on in-range shifted columns. -/
theorem wrapLon_eq {z : ℤ} {n : ℕ} (hz : z = n) (hn : n ≤ 32767) : wrapLon z = n := by
  subst hz
  unfold wrapLon
  omega

/-- Clamping is the identity on in-range shifted rows. -/
theorem clampLat_eq {z : ℤ} {n : ℕ} (hz : z = n) (hn : n ≤ 32767) : clampLat z = n := by
  subst hz
  unfold clampLat
  omega

/-- C9: for any two coordinates whose components differ by at most one
cell span, the second coordinate's bucket key lies among the first
coordinate's key and its 8 neighbor keys — the 9-bucket query of the
proximity search misses no point within the cell's nominal span. -/
theorem nineKeys_complete (lat1 lon1 lat2 lon2 : ℚ)
    (hla : |lat1 - lat2| ≤ cellLatSpan) (hlo : |lon1 - lon2| ≤ cellLonSpan) :
    geohashEncode lat2 lon2 ∈ nineKeysAt lat1 lon1 := by
  have hj := latIdx_close hla
  have hi := lonIdx_close hlo
  have hj1 := latIdx_le lat1
  have hj2 := latIdx_le lat2
  have hi1 := lonIdx_le lon1
  have hi2 := lonIdx_le lon2
  have hdi : ((lonIdx lon2 : ℕ) : ℤ) = (lonIdx lon1 : ℕ) - 1 ∨
      ((lonIdx lon2 : ℕ) : ℤ) = (lonIdx lon1 : ℕ) ∨
      ((lonIdx lon2 : ℕ) : ℤ) = (lonIdx lon1 : ℕ) + 1 := by omega
  have hdj : ((latIdx lat2 : ℕ) : ℤ) = (latIdx lat1 : ℕ) - 1 ∨
      ((latIdx lat2 : ℕ) : ℤ) = (latIdx lat1 : ℕ) ∨
      ((latIdx lat2 : ℕ) : ℤ) = (latIdx lat1 : ℕ) + 1 := by omega
  unfold nineKeysAt geohashEncode neighborKeys
  simp only [List.map_cons, List.map_nil, List.mem_cons, List.not_mem_nil, or_false]
  rcases hdi with hdi | hdi | hdi <;> rcases hdj with hdj | hdj | hdj
  · -- SW neighbor
    refine Or.inr (Or.inr (Or.inr (Or.inr (Or.inr (Or.inr (Or.inl ?_))))))
    rw [wrapLon_eq (by omega) hi2, clampLat_eq (by omega) hj2]
  · -- W neighbor
    refine Or.inr (Or.inr (Or.inr (Or.inr (Or.inr (Or.inr (Or.inr (Or.inl ?_)))))))
    rw [wrapLon_eq (by omega) hi2, clampLat_eq (by omega) hj2]
  · -- NW neighbor
    refine Or.inr (Or.inr (Or.inr (Or.inr (Or.inr (Or.inr (Or.inr (Or.inr ?_)))))))
    rw [wrapLon_eq (by omega) hi2, clampLat_eq (by omega) hj2]
  · -- S neighbor
    refine Or.inr (Or.inr (Or.inr (Or.inr (Or.inr (Or.inl ?_)))))
    rw [wrapLon_eq (by omega) hi2, clampLat_eq (by omega) hj2]
  · -- same cell
    refine Or.inl ?_
    have h1 : lonIdx lon2 = lonIdx lon1 := by omega
    have h2 : latIdx lat2 = latIdx lat1 := by omega
    rw [h1, h2]
  · -- N neighbor
    refine Or.inr (Or.inl ?_)
    rw [wrapLon_eq (by omega) hi2, clampLat_eq (by omega) hj2]
  · -- SE neighbor
    refine Or.inr (Or.inr (Or.inr (Or.inr (Or.inl ?_))))
    rw [wrapLon_eq (by omega) hi2, clampLat_eq (by omega) hj2]
  · -- E neighbor
    refine Or.inr (Or.inr (Or.inr (Or.inl ?_)))
    rw [wrapLon_eq (by omega) hi2, clampLat_eq (by omega) hj2]
  · -- NE neighbor
    refine Or.inr (Or.inr (Or.inl ?_))
    rw [wrapLon_eq (by omega) hi2, clampLat_eq (by omega) hj2]

/-- Witness for C9 at a concrete input: the origin's own key is among the
origin's nine bucket keys. -/
theorem nineKeys_complete_witness : geohashEncode 0 0 ∈ nineKeysAt 0 0 :=
  nineKeys_complete 0 0 0 0 (by norm_num [cellLatSpan]) (by norm_num [cellLonSpan])

/-- Witness for C3 at concrete inputs: the one emitted suggestion of the
worked store names an opted-in stored candidate, and the empty-store
submitter (whose re-read profile has the flag unset) is acknowledged with
the persisted update and no suggestions. -/
theorem optIn_required_witness :
    (∃ p, (("u2" : String), p) ∈ dbOne ∧ p.locationEnabled = true) ∧
      persistAndSuggest settingsOff [] "u1" (.finite 0) (.finite 0) 0 =
        { status := 200
          persisted := some (buildLocationUpdateIndexed (.finite 0) (.finite 0) 0)
          suggestions := [] } :=
  ⟨(optIn_required settingsOff dbOne "u1" profAlice (.finite 0) (.finite 0) 0).1
      { userId := "u2", distanceMeters := some 0, commonInterests := ["ai"] }
      (by rw [computeSuggestions_eval]; exact List.mem_singleton_self _),
   (optIn_required settingsOff [] "u1" profAlice (.finite 0) (.finite 0) 0).2 rfl⟩

/-- Witness for C4 at concrete inputs: the candidate behind the emitted
suggestion of the worked store carries a timestamp within the 5-minute
window of the handling time. -/
theorem recency_required_witness :
    ∃ p ts, (("u2" : String), p) ∈ dbOne ∧ p.locationUpdatedAt = some ts ∧
      (0 : ℤ) - ts ≤ 300000 :=
  recency_required settingsOff dbOne "u1" profAlice (.finite 0) (.finite 0) 0
    { userId := "u2", distanceMeters := some 0, commonInterests := ["ai"] }
    (by rw [computeSuggestions_eval]; exact List.mem_singleton_self _)

/-- Witness for C10 at concrete inputs: the worked store's suggestion list
has pairwise-distinct candidate ids and does not name the submitter. -/
theorem candidate_dedup_witness :
    ((computeSuggestions settingsOff dbOne "u1" profAlice (.finite 0) (.finite 0) 0).map
      (fun sug => sug.userId)).Nodup ∧
      "u1" ∉ (computeSuggestions settingsOff dbOne "u1" profAlice
        (.finite 0) (.finite 0) 0).map (fun sug => sug.userId) :=
  candidate_dedup settingsOff dbOne "u1" profAlice (.finite 0) (.finite 0) 0

end CampusConnect
